import Mathlib

/-!
Dynamic record-branch controller of `examples/test-dynamic-splitmuxsink.c`.

A shallow embedding of the controller functions of the example
(`unlink_cb`, `stop_record`, `start_record`, `toggle_record`,
`media_configure`) as state-passing functions.

* `Context` is the C struct of the same name.  `ctx->pipeline` and `ctx->tee`
  are written once by `media_configure` and never change; the `Graph` below
  is the state of that pipeline and of that tee.
* Pointers are handles; `NULL` is `none`.  GStreamer calls on a `NULL`
  argument return without effect.
* The GStreamer runtime is external: whether a description parses and
  whether the tee pad links to the bin built from it are given by an `Env`.
* Every call made by the source is logged, in program order, in
  `State.trace`.  Reference counting and element state changes appear in the
  log only.
* The tee hands out a new `src_%u` pad on every request and the
  `splitmuxsink` factory makes an element on every call; the source checks
  neither result.
* `gst_pad_add_probe (.., GST_PAD_PROBE_TYPE_IDLE, unlink_cb, ctx, ..)`
  registers the callback on the pad.  When the pad is idle at that moment
  (`Env.pad_idle`) the runtime calls the callback inside the call, and drops
  the registration when the callback answers `GST_PAD_PROBE_REMOVE`.
  Otherwise the callback stays pending in `State.probes` and runs at a later
  idle moment: that is the separate event `fire`, which may pick any pending
  callback at any time.
* A probe can be added only to a live pad of the tee.  With `ctx->teepad`
  `NULL`, released (lines 71-72) or never written (line 181) the call is
  outside the contract of the library; in the model it fails its
  `GST_IS_PAD` check and registers nothing.  The program makes no such call:
  `toggle_record` reaches `stop_record` only with `record_started` `TRUE`, and
  then `ctx->teepad` is the live pad requested by `start_record` (`Inv`,
  `run_teepad_live`).
-/

namespace DynSplitmux

/-- Which call created an element: one that came with the media pipeline, a bin
made by `gst_parse_bin_from_description` in `start_record`, or the element made
by `gst_element_factory_make ("splitmuxsink", NULL)` in `start_record`. -/
inductive ElemKind
  | media
  | record_pipeline
  | splitmuxsink
  deriving DecidableEq, Repr

/-- Handle of a `GstElement`. -/
structure Elem where
  kind : ElemKind
  id : Nat
  deriving DecidableEq, Repr

/-- Handle of a `GstPad` requested from the tee. -/
structure Pad where
  id : Nat
  deriving DecidableEq, Repr

/-- The C struct `Context` (lines 22-35), without the two pointers that are
fixed after `media_configure`. -/
structure Context where
  teepad : Option Pad
  record_pipeline : Option Elem
  splitmuxsink : Option Elem
  record_started : Bool
  removing : Bool
  record_pipeline_description : String
  deriving DecidableEq, Repr

/-- Structural state of `ctx->pipeline` and `ctx->tee`: the children of the
bin, the request pads of the tee that are currently allocated, and the links
from a tee pad to the `sink` pad of an element. -/
structure Graph where
  children : List Elem
  teePads : List Pad
  links : List (Pad × Elem)
  deriving DecidableEq, Repr

/-- Return values of a pad probe callback used by the source. -/
inductive GstPadProbeReturn
  | OK
  | REMOVE
  deriving DecidableEq, Repr

/-- One logged call or controller field write. -/
inductive Action
  | g_print (msg : String)
  | timeout_add_seconds (secs : Nat)
  | compare_and_exchange (won : Bool)
  | get_pad_template (name : String)
  | request_pad (res : Option Pad)
  | parse_bin_from_description (desc : String) (res : Option Elem)
  | factory_make (factory : String) (res : Option Elem)
  | set_removing (v : Bool)
  | object_set (e : Option Elem) (prop : String)
  | signal_connect (e : Option Elem) (sig : String)
  | object_ref (e : Option Elem)
  | bin_add (e : Elem)
  | element_link (a b : Option Elem)
  | sync_state_with_parent (e : Option Elem)
  | get_static_pad (e : Option Elem) (name : String)
  | pad_link (p : Option Pad) (sink : Option Elem) (ok : Bool)
  | pad_unlink (p : Option Pad) (sink : Option Elem)
  | unref_sinkpad (sink : Option Elem)
  | bin_remove (e : Option Elem)
  | set_state_null (e : Option Elem)
  | object_unref (e : Option Elem)
  | release_request_pad (p : Option Pad)
  | unref_pad (p : Option Pad)
  | set_record_started (v : Bool)
  | pad_add_probe (p : Option Pad)
  deriving DecidableEq, Repr

/-- Outcomes of the external runtime during one call of the controller:
whether `gst_parse_bin_from_description` accepts a description, whether the
tee pad can be linked to the `sink` pad of the bin built from it, and whether
the tee pad is idle (no data transfer in progress) when a probe is added. -/
structure Env where
  parse_ok : String → Bool
  link_ok : String → Bool
  pad_idle : Bool

/-- Whole program state seen by the controller. -/
structure State where
  ctx : Context
  graph : Graph
  probes : List Pad
  next : Nat
  trace : List Action
  deriving DecidableEq, Repr

/-- Append one entry to the log. -/
def emit (a : Action) (s : State) : State :=
  { s with trace := s.trace ++ [a] }

/-- The call `g_atomic_int_compare_and_exchange (&v, oldval, newval)`: the new
content of the cell and whether the exchange took place. -/
def g_atomic_int_compare_and_exchange (v oldval newval : Bool) : Bool × Bool :=
  if v = oldval then (newval, true) else (v, false)

/-- The call `gst_element_request_pad (ctx->tee, templ, NULL, NULL)`: the tee
makes a new `src_%u` pad. -/
def gst_element_request_pad (s : State) : State × Option Pad :=
  let p : Pad := ⟨s.next⟩
  (emit (.request_pad (some p))
    { s with graph := { s.graph with teePads := s.graph.teePads ++ [p] },
             next := s.next + 1 },
   some p)

/-- The call `gst_parse_bin_from_description (desc, TRUE, &error)`: a new bin,
or `NULL` with `error` set. The third component is `error != NULL`. -/
def gst_parse_bin_from_description (env : Env) (desc : String) (s : State) :
    State × Option Elem × Bool :=
  if env.parse_ok desc then
    let e : Elem := ⟨.record_pipeline, s.next⟩
    (emit (.parse_bin_from_description desc (some e)) { s with next := s.next + 1 },
     some e, false)
  else
    (emit (.parse_bin_from_description desc none) s, none, true)

/-- The call `gst_element_factory_make ("splitmuxsink", NULL)`. -/
def gst_element_factory_make (s : State) : State × Option Elem :=
  let e : Elem := ⟨.splitmuxsink, s.next⟩
  (emit (.factory_make ("splitmuxsink") (some e)) { s with next := s.next + 1 }, some e)

/-- One `gst_bin_add (GST_BIN (ctx->pipeline), e)`. -/
def gst_bin_add (e : Elem) (s : State) : State :=
  emit (.bin_add e) { s with graph := { s.graph with children := s.graph.children ++ [e] } }

/-- The call `gst_bin_add_many (bin, a, b, NULL)`: the argument list ends at
the first `NULL`. -/
def gst_bin_add_many (a b : Option Elem) (s : State) : State :=
  match a with
  | none => s
  | some x =>
    match b with
    | none => gst_bin_add x s
    | some y => gst_bin_add y (gst_bin_add x s)

/-- The call `gst_bin_remove (GST_BIN (ctx->pipeline), e)`. -/
def gst_bin_remove (e : Option Elem) (s : State) : State :=
  match e with
  | none => emit (.bin_remove none) s
  | some x =>
    emit (.bin_remove (some x))
      { s with graph := { s.graph with children := s.graph.children.erase x } }

/-- The call `gst_pad_link (p, sinkpad)` where `sinkpad` is the `sink` pad of
`sink`; the result of the call says whether the link was made. -/
def gst_pad_link (env : Env) (p : Option Pad) (sink : Option Elem) (s : State) :
    State × Bool :=
  match p, sink with
  | some x, some y =>
    if env.link_ok s.ctx.record_pipeline_description then
      (emit (.pad_link p sink true)
        { s with graph := { s.graph with links := s.graph.links ++ [(x, y)] } }, true)
    else
      (emit (.pad_link p sink false) s, false)
  | _, _ => (emit (.pad_link p sink false) s, false)

/-- The call `gst_pad_unlink (p, sinkpad)`. -/
def gst_pad_unlink (p : Option Pad) (sink : Option Elem) (s : State) : State :=
  match p, sink with
  | some x, some y =>
    emit (.pad_unlink p sink)
      { s with graph := { s.graph with links := s.graph.links.erase (x, y) } }
  | _, _ => emit (.pad_unlink p sink) s

/-- The call `gst_element_release_request_pad (ctx->tee, p)`. -/
def gst_element_release_request_pad (p : Option Pad) (s : State) : State :=
  match p with
  | none => emit (.release_request_pad none) s
  | some x =>
    emit (.release_request_pad (some x))
      { s with graph := { s.graph with teePads := s.graph.teePads.erase x } }

/-- The part of `unlink_cb` after the exchange, lines 58-78. -/
def detach_body (s0 : State) : State :=
  let sinkpad := s0.ctx.record_pipeline
  let s := emit (.get_static_pad s0.ctx.record_pipeline ("sink")) s0
  let s := gst_pad_unlink s.ctx.teepad sinkpad s
  let s := emit (.unref_sinkpad sinkpad) s
  let s := gst_bin_remove s.ctx.record_pipeline s
  let s := gst_bin_remove s.ctx.splitmuxsink s
  let s := emit (.set_state_null s.ctx.splitmuxsink) s
  let s := emit (.set_state_null s.ctx.record_pipeline) s
  let s := emit (.object_unref s.ctx.record_pipeline) s
  let s := emit (.object_unref s.ctx.splitmuxsink) s
  let s := gst_element_release_request_pad s.ctx.teepad s
  let s := emit (.unref_pad s.ctx.teepad) s
  let s := emit (.g_print ("Record stopped\n")) s
  emit (.set_record_started false) { s with ctx := { s.ctx with record_started := false } }

/-- The function `unlink_cb` (lines 48-79). The pad argument is not used by
the source. -/
def unlink_cb (_pad : Pad) (s0 : State) : State × GstPadProbeReturn :=
  let r := g_atomic_int_compare_and_exchange s0.ctx.removing false true
  let s := emit (.compare_and_exchange r.2) { s0 with ctx := { s0.ctx with removing := r.1 } }
  if !r.2 then (s, .OK)
  else (detach_body s, .REMOVE)

/-- The call `gst_pad_add_probe (p, GST_PAD_PROBE_TYPE_IDLE, callback, ctx,
NULL)`. On a live pad of the tee the callback is registered; when the pad is
idle (`idle_now`) the callback is called at once, inside the call, and its
registration is dropped when it answers `GST_PAD_PROBE_REMOVE`. A pointer that
is not a live pad does not pass the `GST_IS_PAD` check: nothing is
registered. -/
def gst_pad_add_probe (idle_now : Bool) (p : Option Pad)
    (callback : Pad → State → State × GstPadProbeReturn) (s : State) : State :=
  match p with
  | none => emit (.pad_add_probe none) s
  | some x =>
    if x ∈ s.graph.teePads then
      let s1 := emit (.pad_add_probe (some x)) { s with probes := s.probes ++ [x] }
      if idle_now then
        match callback x s1 with
        | (s2, .REMOVE) => { s2 with probes := s2.probes.eraseIdx s.probes.length }
        | (s2, .OK) => s2
      else s1
    else emit (.pad_add_probe (some x)) s

/-- The function `stop_record` (lines 82-89). -/
def stop_record (env : Env) (s0 : State) : State × Bool :=
  let s := emit (.g_print ("stop\n")) s0
  let s := gst_pad_add_probe env.pad_idle s.ctx.teepad unlink_cb s
  (s, true)

/-- The function `start_record` (lines 91-142). -/
def start_record (env : Env) (s0 : State) : State × Bool :=
  let s := emit (.g_print ("Start record\n")) s0
  let s := emit (.get_pad_template ("src_%u")) s
  let r := gst_element_request_pad s
  let s := { r.1 with ctx := { r.1.ctx with teepad := r.2 } }
  let b := gst_parse_bin_from_description env s.ctx.record_pipeline_description s
  let s := { b.1 with ctx := { b.1.ctx with record_pipeline := b.2.1 } }
  if b.2.2 then
    (emit (.g_print ("error->message")) s, false)
  else
    let f := gst_element_factory_make s
    let s := { f.1 with ctx := { f.1.ctx with splitmuxsink := f.2 } }
    let s := emit (.set_removing false) { s with ctx := { s.ctx with removing := false } }
    let s := emit (.object_set s.ctx.splitmuxsink ("muxer-factory")) s
    let s := emit (.object_set s.ctx.splitmuxsink ("async-finalize")) s
    let s := emit (.object_set s.ctx.splitmuxsink ("max-size-time")) s
    let s := emit (.signal_connect s.ctx.splitmuxsink ("format_location")) s
    let s := emit (.object_ref s.ctx.record_pipeline) s
    let s := emit (.object_ref s.ctx.splitmuxsink) s
    let s := gst_bin_add_many s.ctx.record_pipeline s.ctx.splitmuxsink s
    let s := emit (.element_link s.ctx.record_pipeline s.ctx.splitmuxsink) s
    let s := emit (.sync_state_with_parent s.ctx.record_pipeline) s
    let s := emit (.sync_state_with_parent s.ctx.splitmuxsink) s
    let sinkpad := s.ctx.record_pipeline
    let s := emit (.get_static_pad s.ctx.record_pipeline ("sink")) s
    let l := gst_pad_link env s.ctx.teepad sinkpad s
    let s := emit (.unref_sinkpad sinkpad) l.1
    let s := emit (.set_record_started true) { s with ctx := { s.ctx with record_started := true } }
    (s, true)

/-- The function `toggle_record` (lines 144-153). -/
def toggle_record (env : Env) (s : State) : State × Bool :=
  if s.ctx.record_started then stop_record env s
  else start_record env s

/-- The function `media_configure` (lines 155-167): the state it leaves, for
the media pipeline `g` and the uninitialised `Context` content `garbage`. -/
def media_configure (garbage : Context) (g : Graph) (next : Nat) : State :=
  emit (.timeout_add_seconds 3)
    { ctx := { garbage with record_started := false },
      graph := g, probes := [], next := next, trace := [] }

/-- The pending idle probe at position `i` fires at a later idle moment of its
pad: `unlink_cb` runs, and the probe is dropped when the callback returns
`GST_PAD_PROBE_REMOVE` and kept when it returns `GST_PAD_PROBE_OK`. -/
def fire (i : Nat) (s : State) : State :=
  match s.probes.get? i with
  | none => s
  | some pad =>
    match unlink_cb pad s with
    | (s1, .REMOVE) => { s1 with probes := s1.probes.eraseIdx i }
    | (s1, .OK) => s1

/-- Invoke `unlink_cb` `n` times in sequence, collecting the return values. -/
def unlink_cb_repeat (pad : Pad) : Nat → State → List GstPadProbeReturn × State
  | 0, s => ([], s)
  | n + 1, s =>
    let r := unlink_cb pad s
    let rest := unlink_cb_repeat pad n r.1
    (r.2 :: rest.1, rest.2)

/-- One complete cycle: `start_record`, `stop_record`, then the callback that
`stop_record` has just scheduled (the one registered behind the callbacks that
were pending before) fires, unless it already ran inside `stop_record`. -/
def cycle (env : Env) (s : State) : State :=
  let s1 := (start_record env s).1
  let s2 := (stop_record env s1).1
  fire s1.probes.length s2

/-- Run `n` cycles one after the other. -/
def cycles (env : Env) : Nat → State → State
  | 0, s => s
  | n + 1, s => cycles env n (cycle env s)

/-- What can happen to the controller: the periodic trigger calls
`toggle_record` (the runtime answering as `env` during the call), or the
pending callback at position `i` fires. -/
inductive Event
  | toggle (env : Env)
  | fire (i : Nat)

/-- One event. -/
def step (s : State) : Event → State
  | .toggle env => (toggle_record env s).1
  | .fire i => fire i s

/-- A finite sequence of events. -/
def run (s : State) (evs : List Event) : State :=
  evs.foldl step s

/-! ## Vocabulary of the properties -/

/-- The three controller states. -/
inductive ControllerState
  | Idle
  | Recording
  | Stopping
  deriving DecidableEq, Repr

/-- Controller state of a program state: `Idle` when `record_started` is
`FALSE`; otherwise `Stopping` when a detach callback is pending and `Recording`
when none is. -/
def State.controller (s : State) : ControllerState :=
  if s.ctx.record_started then
    (if s.probes.isEmpty then .Recording else .Stopping)
  else .Idle

/-- No node of a record branch is registered in the bin and no tee pad is
linked to one. -/
def Graph.no_branch (g : Graph) : Bool :=
  g.children.all (fun e => decide (e.kind = .media)) &&
    g.links.all (fun l => decide (l.2.kind = .media))

/-- Idle state: `record_started` is `FALSE` and no branch is attached. -/
def State.idle (s : State) : Bool :=
  !s.ctx.record_started && s.graph.no_branch

/-- The record bins registered in the pipeline: one per attached branch. -/
def Graph.branches (g : Graph) : List Elem :=
  g.children.filter (fun e => decide (e.kind = .record_pipeline))

/-- The splitmuxsink nodes registered in the pipeline. -/
def Graph.branch_sinks (g : Graph) : List Elem :=
  g.children.filter (fun e => decide (e.kind = .splitmuxsink))

/-- The links from a tee pad to a branch. -/
def Graph.branch_links (g : Graph) : List (Pad × Elem) :=
  g.links.filter (fun l => decide (l.2.kind ≠ .media))

/-- Number of request pads of the tee that are currently allocated. -/
def State.active_ports (s : State) : Nat := s.graph.teePads.length

/-- The log entries added between `s` and a later state `s1`. -/
def new_trace (s s1 : State) : List Action := s1.trace.drop s.trace.length

/-- The steps of the attach and detach sequences. -/
inductive Stage
  | request_port
  | build_branch
  | add_nodes
  | link_branch_nodes
  | sync_state
  | link_port
  | to_recording
  | unlink_port
  | remove_nodes
  | deactivate
  | release_branch
  | release_port
  | to_idle
  deriving DecidableEq, Repr

/-- The step a logged call belongs to; bookkeeping calls (printing, pad
look-up, property setting, taking a reference, dropping a pad reference, the
guard) belong to none. -/
def Action.stage : Action → Option Stage
  | .request_pad _ => some .request_port
  | .parse_bin_from_description _ _ => some .build_branch
  | .factory_make _ _ => some .build_branch
  | .bin_add _ => some .add_nodes
  | .element_link _ _ => some .link_branch_nodes
  | .sync_state_with_parent _ => some .sync_state
  | .pad_link _ _ _ => some .link_port
  | .set_record_started true => some .to_recording
  | .set_record_started false => some .to_idle
  | .pad_unlink _ _ => some .unlink_port
  | .bin_remove _ => some .remove_nodes
  | .set_state_null _ => some .deactivate
  | .object_unref _ => some .release_branch
  | .release_request_pad _ => some .release_port
  | _ => none

/-- Drop adjacent repetitions. -/
def collapse : List Stage → List Stage
  | [] => []
  | [a] => [a]
  | a :: b :: rest => if a = b then collapse (b :: rest) else a :: collapse (b :: rest)

/-- The sequence of steps of a log. -/
def stages (tr : List Action) : List Stage :=
  collapse (tr.filterMap Action.stage)

/-- Position in the log of the first call of a step (the length of the log
when there is none). -/
def first_at (st : Stage) (tr : List Action) : Nat :=
  tr.findIdx (fun a => decide (a.stage = some st))

/-! ## Example inputs -/

/-- Runtime in which the description parses, the pads link and the tee pad is
busy when a probe is added. -/
def ex_env : Env := ⟨fun _ => true, fun _ => true, false⟩

/-- Runtime in which the description is rejected. -/
def ex_env_reject : Env := ⟨fun _ => false, fun _ => true, false⟩

/-- Runtime in which the description parses and the pad link fails. -/
def ex_env_nolink : Env := ⟨fun _ => true, fun _ => false, false⟩

/-- A media pipeline with one element fed by one tee pad. -/
def ex_graph : Graph := ⟨[⟨.media, 0⟩], [⟨1⟩], [(⟨1⟩, ⟨.media, 0⟩)]⟩

/-- State left by `media_configure` on `ex_graph`. -/
def ex_idle : State := media_configure ⟨none, none, none, true, true, "queue"⟩ ex_graph 2

/-- State after one successful `start_record`. -/
def ex_recording : State := (start_record ex_env ex_idle).1

/-- State after `start_record` and a `stop_record` on a busy pad: one callback
is pending. -/
def ex_stopping : State := (stop_record ex_env ex_recording).1

/-! ## Closed forms and invariant used in the proofs -/

/-- Log of a `start_record` call in which the description parses. -/
def start_log (env : Env) (s : State) : List Action :=
  let tp : Option Pad := some ⟨s.next⟩
  let rp : Option Elem := some ⟨.record_pipeline, s.next + 1⟩
  let sms : Option Elem := some ⟨.splitmuxsink, s.next + 2⟩
  [.g_print ("Start record\n"), .get_pad_template ("src_%u"),
   .request_pad tp,
   .parse_bin_from_description s.ctx.record_pipeline_description rp,
   .factory_make ("splitmuxsink") sms,
   .set_removing false,
   .object_set sms ("muxer-factory"),
   .object_set sms ("async-finalize"),
   .object_set sms ("max-size-time"),
   .signal_connect sms ("format_location"),
   .object_ref rp, .object_ref sms,
   .bin_add ⟨.record_pipeline, s.next + 1⟩, .bin_add ⟨.splitmuxsink, s.next + 2⟩,
   .element_link rp sms,
   .sync_state_with_parent rp, .sync_state_with_parent sms,
   .get_static_pad rp ("sink"),
   .pad_link tp rp (env.link_ok s.ctx.record_pipeline_description),
   .unref_sinkpad rp,
   .set_record_started true]

/-- The state `stop_record` leaves when the callback does not run inside the
call: the callback is registered on a live `ctx->teepad`, nothing is
registered otherwise. -/
def stop_pending (s : State) : State :=
  match s.ctx.teepad with
  | none =>
    { s with trace := s.trace ++ [.g_print ("stop\n"), .pad_add_probe none] }
  | some x =>
    if x ∈ s.graph.teePads then
      { s with probes := s.probes ++ [x],
               trace := s.trace ++ [.g_print ("stop\n"), .pad_add_probe (some x)] }
    else
      { s with trace := s.trace ++ [.g_print ("stop\n"), .pad_add_probe (some x)] }

/-- Log of the detach body for the given controller fields. -/
def detach_log (c : Context) : List Action :=
  [.get_static_pad c.record_pipeline ("sink"),
   .pad_unlink c.teepad c.record_pipeline,
   .unref_sinkpad c.record_pipeline,
   .bin_remove c.record_pipeline, .bin_remove c.splitmuxsink,
   .set_state_null c.splitmuxsink, .set_state_null c.record_pipeline,
   .object_unref c.record_pipeline, .object_unref c.splitmuxsink,
   .release_request_pad c.teepad, .unref_pad c.teepad,
   .g_print ("Record stopped\n"),
   .set_record_started false]

/-- Invariant of the controller: with `record_started` `FALSE` no branch is
attached; with `record_started` `TRUE` the branch held in the controller fields
is the only one attached and `ctx->teepad` is a live pad of the tee. -/
def Inv (s : State) : Prop :=
  (s.ctx.record_started = false → s.graph.no_branch = true) ∧
  (s.ctx.record_started = true →
    ∃ tp rp sms base bl,
      s.ctx.teepad = some tp ∧ tp ∈ s.graph.teePads ∧
      s.ctx.record_pipeline = some rp ∧ s.ctx.splitmuxsink = some sms ∧
      rp.kind = .record_pipeline ∧ sms.kind = .splitmuxsink ∧
      (∀ e ∈ base, e.kind = .media) ∧ (∀ l ∈ bl, l.2.kind = .media) ∧
      s.graph.children = base ++ [rp, sms] ∧
      (s.graph.links = bl ∨ s.graph.links = bl ++ [(tp, rp)]))

/-! ## Theorems -/

theorem erase_append_self {α : Type} [BEq α] [LawfulBEq α] (l : List α) (a : α) (h : a ∉ l) :
    (l ++ [a]).erase a = l := by
  rw [List.erase_append_right [a] h]
  simp

theorem eraseIdx_append_last {α : Type} (l : List α) (a : α) :
    (l ++ [a]).eraseIdx l.length = l := by
  rw [List.eraseIdx_append_of_length_le (Nat.le_refl _)]
  simp

theorem no_branch_iff (g : Graph) :
    g.no_branch = true ↔
      (∀ e ∈ g.children, e.kind = .media) ∧ (∀ l ∈ g.links, l.2.kind = .media) := by
  simp [Graph.no_branch, List.all_eq_true]

/-- C10: `toggle_record` dispatches to `stop_record` when `record_started` is
`TRUE` and to `start_record` otherwise, and it returns `FALSE` exactly when
`record_started` was `FALSE` and the description was rejected by the parser. -/
theorem toggle_record_dispatch_and_result (env : Env) (s : State) :
    (toggle_record env s =
        if s.ctx.record_started = true then stop_record env s else start_record env s) ∧
    ((toggle_record env s).2 = false ↔
        (s.ctx.record_started = false ∧
          env.parse_ok s.ctx.record_pipeline_description = false)) := by
  refine ⟨rfl, ?_⟩
  have hstop : (stop_record env s).2 = true := rfl
  cases hs : s.ctx.record_started <;>
    cases hp : env.parse_ok s.ctx.record_pipeline_description <;>
    simp [toggle_record, hstop, start_record, gst_parse_bin_from_description,
      gst_element_request_pad, emit, hs, hp]

theorem start_record_reject (env : Env) (s : State)
    (h : env.parse_ok s.ctx.record_pipeline_description = false) :
    start_record env s =
      ({ ctx := { s.ctx with teepad := some ⟨s.next⟩, record_pipeline := none },
         graph := { s.graph with teePads := s.graph.teePads ++ [⟨s.next⟩] },
         probes := s.probes,
         next := s.next + 1,
         trace := s.trace ++
           [.g_print ("Start record\n"), .get_pad_template ("src_%u"),
            .request_pad (some ⟨s.next⟩),
            .parse_bin_from_description s.ctx.record_pipeline_description none,
            .g_print ("error->message")] }, false) := by
  simp [start_record, gst_parse_bin_from_description, gst_element_request_pad, emit, h]

theorem start_record_accept (env : Env) (s : State)
    (h : env.parse_ok s.ctx.record_pipeline_description = true) :
    start_record env s =
      ({ ctx := { s.ctx with teepad := some ⟨s.next⟩,
                             record_pipeline := some ⟨.record_pipeline, s.next + 1⟩,
                             splitmuxsink := some ⟨.splitmuxsink, s.next + 2⟩,
                             removing := false, record_started := true },
         graph := { children := s.graph.children ++
                      [⟨.record_pipeline, s.next + 1⟩, ⟨.splitmuxsink, s.next + 2⟩],
                    teePads := s.graph.teePads ++ [⟨s.next⟩],
                    links := if env.link_ok s.ctx.record_pipeline_description = true then
                        s.graph.links ++ [(⟨s.next⟩, ⟨.record_pipeline, s.next + 1⟩)]
                      else s.graph.links },
         probes := s.probes,
         next := s.next + 3,
         trace := s.trace ++ start_log env s }, true) := by
  cases hl : env.link_ok s.ctx.record_pipeline_description <;>
  simp [start_record, gst_parse_bin_from_description, gst_element_request_pad, emit, h, hl,
    gst_element_factory_make, gst_bin_add_many, gst_bin_add, gst_pad_link, start_log]

theorem unlink_cb_lost (pad : Pad) (s : State) (h : s.ctx.removing = true) :
    unlink_cb pad s = (emit (.compare_and_exchange false) s, .OK) := by
  obtain ⟨⟨a, b, c, d, e, f⟩, g, p, n, t⟩ := s
  simp at h
  simp [unlink_cb, g_atomic_int_compare_and_exchange, h, emit]

theorem unlink_cb_won (pad : Pad) (s : State) (h : s.ctx.removing = false) :
    unlink_cb pad s =
      (detach_body (emit (.compare_and_exchange true)
        { s with ctx := { s.ctx with removing := true } }), .REMOVE) := by
  simp [unlink_cb, g_atomic_int_compare_and_exchange, h, emit]

theorem detach_body_trace (s : State) :
    (detach_body s).trace = s.trace ++ detach_log s.ctx := by
  obtain ⟨⟨tp, rp, sms, d, e, f⟩, g, p, n, t⟩ := s
  cases tp <;> cases rp <;> cases sms <;>
  simp [detach_body, detach_log, emit, gst_pad_unlink, gst_bin_remove,
    gst_element_release_request_pad]

theorem detach_body_some (s : State) (tp : Pad) (rp sms : Elem)
    (h1 : s.ctx.teepad = some tp) (h2 : s.ctx.record_pipeline = some rp)
    (h3 : s.ctx.splitmuxsink = some sms) :
    detach_body s =
      { ctx := { s.ctx with record_started := false },
        graph := { children := (s.graph.children.erase rp).erase sms,
                   teePads := s.graph.teePads.erase tp,
                   links := s.graph.links.erase (tp, rp) },
        probes := s.probes,
        next := s.next,
        trace := s.trace ++ detach_log s.ctx } := by
  obtain ⟨⟨tp1, rp1, sms1, d, e, f⟩, g, p, n, t⟩ := s
  simp at h1 h2 h3
  subst h1 h2 h3
  simp [detach_body, detach_log, emit, gst_pad_unlink, gst_bin_remove,
    gst_element_release_request_pad]

theorem detach_body_frame (s : State) :
    (detach_body s).ctx = { s.ctx with record_started := false } ∧
    (detach_body s).probes = s.probes ∧ (detach_body s).next = s.next ∧
    (detach_body s).graph.children.Sublist s.graph.children ∧
    (detach_body s).graph.links.Sublist s.graph.links ∧
    (detach_body s).graph.teePads.Sublist s.graph.teePads := by
  obtain ⟨⟨tp, rp, sms, d, e, f⟩, g, p, n, t⟩ := s
  cases tp <;> cases rp <;> cases sms <;>
  simp [detach_body, emit, gst_pad_unlink, gst_bin_remove,
    gst_element_release_request_pad, List.erase_sublist] <;>
  first
    | exact List.erase_sublist _ _
    | exact (List.erase_sublist _ _).trans (List.erase_sublist _ _)

theorem unlink_cb_repeat_lost (pad : Pad) (n : Nat) (s : State) (h : s.ctx.removing = true) :
    (unlink_cb_repeat pad n s).1 = List.replicate n .OK ∧
    (unlink_cb_repeat pad n s).2.ctx = s.ctx ∧
    (unlink_cb_repeat pad n s).2.graph = s.graph ∧
    (unlink_cb_repeat pad n s).2.probes = s.probes ∧
    (unlink_cb_repeat pad n s).2.next = s.next ∧
    (unlink_cb_repeat pad n s).2.trace =
      s.trace ++ List.replicate n (.compare_and_exchange false) := by
  induction n generalizing s with
  | zero => simp [unlink_cb_repeat]
  | succ k ih =>
    have hk := ih (emit (.compare_and_exchange false) s) (by simpa [emit] using h)
    simp only [unlink_cb_repeat, unlink_cb_lost pad s h, List.replicate_succ]
    refine ⟨by rw [hk.1], ?_, ?_, ?_, ?_, ?_⟩
    · rw [hk.2.1]; rfl
    · rw [hk.2.2.1]; rfl
    · rw [hk.2.2.2.1]; rfl
    · rw [hk.2.2.2.2.1]; rfl
    · rw [hk.2.2.2.2.2]; simp [emit]

/-- C1: after one successful `start_record`, `N >= 1` invocations of
`unlink_cb` in sequence: the first wins the exchange on `ctx->removing` and
runs the detach body, every later one sees the exchange fail and changes
neither the controller fields nor the graph, so exactly one invocation wins. -/
theorem unlink_cb_exactly_once (env : Env) (s0 : State) (pad : Pad) (N : Nat)
    (hN : 1 ≤ N) (hstart : (start_record env s0).2 = true) :
    ((unlink_cb_repeat pad N (start_record env s0).1).1.count .REMOVE = 1) ∧
    ((unlink_cb_repeat pad N (start_record env s0).1).1 =
        .REMOVE :: List.replicate (N - 1) .OK) ∧
    ((new_trace (start_record env s0).1
        (unlink_cb_repeat pad N (start_record env s0).1).2).count
          (.compare_and_exchange true) = 1) ∧
    ((new_trace (start_record env s0).1
        (unlink_cb_repeat pad N (start_record env s0).1).2).count
          (.compare_and_exchange false) = N - 1) ∧
    ((new_trace (start_record env s0).1
        (unlink_cb_repeat pad N (start_record env s0).1).2).count
          (.set_record_started false) = 1) ∧
    ((unlink_cb_repeat pad N (start_record env s0).1).2.ctx =
        (unlink_cb pad (start_record env s0).1).1.ctx) ∧
    ((unlink_cb_repeat pad N (start_record env s0).1).2.graph =
        (unlink_cb pad (start_record env s0).1).1.graph) := by
  have hp : env.parse_ok s0.ctx.record_pipeline_description = true := by
    cases hq : env.parse_ok s0.ctx.record_pipeline_description
    · rw [start_record_reject env s0 hq] at hstart; simp at hstart
    · rfl
  obtain ⟨k, rfl⟩ : ∃ k, N = k + 1 := ⟨N - 1, by omega⟩
  generalize hs : (start_record env s0).1 = s
  have hrem : s.ctx.removing = false := by
    rw [← hs, start_record_accept env s0 hp]
  have hwon := unlink_cb_won pad s hrem
  generalize hs1 : detach_body (emit (.compare_and_exchange true)
        { s with ctx := { s.ctx with removing := true } }) = s1 at hwon
  have hfr := detach_body_frame (emit (.compare_and_exchange true)
        { s with ctx := { s.ctx with removing := true } })
  have htr := detach_body_trace (emit (.compare_and_exchange true)
        { s with ctx := { s.ctx with removing := true } })
  rw [hs1] at hfr htr
  have hrem1 : s1.ctx.removing = true := by rw [hfr.1]; simp [emit]
  have hl := unlink_cb_repeat_lost pad k s1 hrem1
  simp only [unlink_cb_repeat, hwon, Nat.add_sub_cancel]
  refine ⟨?_, ?_, ?_, ?_, ?_, hl.2.1, hl.2.2.1⟩
  · rw [hl.1]; simp [List.count_replicate]
  · rw [hl.1]
  · rw [new_trace, hl.2.2.2.2.2, htr]
    simp [emit, detach_log, List.count_replicate]
  · rw [new_trace, hl.2.2.2.2.2, htr]
    simp [emit, detach_log, List.count_replicate]
  · rw [new_trace, hl.2.2.2.2.2, htr]
    simp [emit, detach_log, List.count_replicate]

/-- Witness of C1 on the example state, three invocations. -/
theorem unlink_cb_exactly_once_witness :
    1 ≤ 3 ∧ (start_record ex_env ex_idle).2 = true ∧
    (unlink_cb_repeat ⟨2⟩ 3 (start_record ex_env ex_idle).1).1 = [.REMOVE, .OK, .OK] :=
  ⟨by decide, rfl, (unlink_cb_exactly_once ex_env ex_idle ⟨2⟩ 3 (by decide) rfl).2.1⟩

/-- C2: when the parser rejects the description, `start_record` from an Idle
state returns `FALSE`, adds no node and stays Idle, but the pad it requested is
still allocated on the tee and is never released: the active-port count is one
more than before the call. -/
theorem start_record_reject_keeps_port (env : Env) (s : State)
    (hidle : s.idle = true)
    (h : env.parse_ok s.ctx.record_pipeline_description = false) :
    (start_record env s).2 = false ∧
    (start_record env s).1.active_ports = s.active_ports + 1 ∧
    (start_record env s).1.graph.teePads = s.graph.teePads ++ [⟨s.next⟩] ∧
    (start_record env s).1.ctx.teepad = some ⟨s.next⟩ ∧
    (∀ p, Action.release_request_pad p ∉ new_trace s (start_record env s).1) ∧
    (start_record env s).1.graph.children = s.graph.children ∧
    (start_record env s).1.graph.links = s.graph.links ∧
    (start_record env s).1.idle = true := by
  rw [start_record_reject env s h]
  simp only [State.idle, Graph.no_branch] at hidle ⊢
  simp [State.active_ports, new_trace, hidle]

/-- Witness of C2 on the example state with a rejected description. -/
theorem start_record_reject_keeps_port_witness :
    ex_idle.idle = true ∧
    ex_env_reject.parse_ok ex_idle.ctx.record_pipeline_description = false ∧
    ex_idle.active_ports = 1 ∧
    (start_record ex_env_reject ex_idle).1.active_ports = 1 + 1 :=
  ⟨rfl, rfl, rfl, (start_record_reject_keeps_port ex_env_reject ex_idle rfl rfl).2.1⟩

theorem fire_none (i : Nat) (s : State) (h : s.probes.get? i = none) : fire i s = s := by
  simp only [fire, h]

theorem fire_lost (i : Nat) (s : State) (pad : Pad) (h : s.probes.get? i = some pad)
    (hrem : s.ctx.removing = true) :
    fire i s = emit (.compare_and_exchange false) s := by
  simp only [fire, h, unlink_cb_lost pad s hrem]

theorem fire_won (i : Nat) (s : State) (pad : Pad) (h : s.probes.get? i = some pad)
    (hrem : s.ctx.removing = false) :
    fire i s =
      { detach_body (emit (.compare_and_exchange true)
          { s with ctx := { s.ctx with removing := true } }) with
        probes := s.probes.eraseIdx i } := by
  have hpr := (detach_body_frame (emit (.compare_and_exchange true)
          { s with ctx := { s.ctx with removing := true } })).2.1
  simp only [fire, h, unlink_cb_won pad s hrem, hpr]
  rfl

theorem stop_record_eq (env : Env) (s : State) :
    stop_record env s =
      (if env.pad_idle = true then fire s.probes.length (stop_pending s)
        else stop_pending s, true) := by
  obtain ⟨⟨tp, rp, sms, rs, rm, d⟩, g, pr, n, t⟩ := s
  cases tp with
  | none =>
    cases env.pad_idle <;> simp [stop_record, gst_pad_add_probe, stop_pending, emit, fire]
  | some x =>
    by_cases hx : x ∈ g.teePads
    · cases hi : env.pad_idle
      · simp [stop_record, gst_pad_add_probe, stop_pending, emit, hx, hi]
      · have hget : (pr ++ [x]).get? pr.length = some x := by simp
        simp only [stop_record, gst_pad_add_probe, stop_pending, emit, hx, hi, if_true, fire,
          List.append_assoc, List.singleton_append, List.nil_append, hget]
    · cases env.pad_idle <;>
        simp [stop_record, gst_pad_add_probe, stop_pending, emit, fire, hx]

theorem stop_pending_live (s : State) (p : Pad) (hp : s.ctx.teepad = some p)
    (hlive : p ∈ s.graph.teePads) :
    stop_pending s =
      { s with probes := s.probes ++ [p],
               trace := s.trace ++ [.g_print ("stop\n"), .pad_add_probe (some p)] } := by
  obtain ⟨⟨tp, rp, sms, rs, rm, d⟩, g, pr, n, t⟩ := s
  simp only at hp hlive
  subst hp
  simp [stop_pending, hlive]

theorem stop_pending_frame (s : State) :
    (stop_pending s).ctx = s.ctx ∧ (stop_pending s).graph = s.graph ∧
    (stop_pending s).next = s.next ∧
    (stop_pending s).trace = s.trace ++ [.g_print ("stop\n"), .pad_add_probe s.ctx.teepad] := by
  obtain ⟨⟨tp, rp, sms, rs, rm, d⟩, g, pr, n, t⟩ := s
  cases tp with
  | none => simp [stop_pending]
  | some x => by_cases hx : x ∈ g.teePads <;> simp [stop_pending, hx]

/-- What one firing can do: it allocates nothing, keeps the port and branch
fields of the controller, adds nothing to the graph, and logs no call of the
attach sequence. -/
theorem fire_frame (i : Nat) (s : State) :
    (fire i s).next = s.next ∧
    (fire i s).ctx.teepad = s.ctx.teepad ∧
    (fire i s).ctx.record_pipeline = s.ctx.record_pipeline ∧
    (fire i s).ctx.splitmuxsink = s.ctx.splitmuxsink ∧
    (fire i s).graph.children.Sublist s.graph.children ∧
    (fire i s).graph.teePads.Sublist s.graph.teePads ∧
    (fire i s).graph.links.Sublist s.graph.links ∧
    ∃ l, (fire i s).trace = s.trace ++ l ∧
      ∀ a ∈ l, a.stage ≠ some .request_port ∧ a.stage ≠ some .build_branch ∧
        a.stage ≠ some .add_nodes := by
  cases hg : s.probes.get? i with
  | none =>
    rw [fire_none i s hg]
    exact ⟨rfl, rfl, rfl, rfl, List.Sublist.refl _, List.Sublist.refl _, List.Sublist.refl _,
      [], by simp, by simp⟩
  | some pad =>
    cases hrem : s.ctx.removing
    · rw [fire_won i s pad hg hrem]
      have hfr := detach_body_frame (emit (.compare_and_exchange true)
          { s with ctx := { s.ctx with removing := true } })
      have htr := detach_body_trace (emit (.compare_and_exchange true)
          { s with ctx := { s.ctx with removing := true } })
      refine ⟨hfr.2.2.1, ?_, ?_, ?_, hfr.2.2.2.1, hfr.2.2.2.2.2, hfr.2.2.2.2.1,
        .compare_and_exchange true :: detach_log s.ctx, ?_, ?_⟩
      · show (detach_body _).ctx.teepad = _
        rw [hfr.1]; rfl
      · show (detach_body _).ctx.record_pipeline = _
        rw [hfr.1]; rfl
      · show (detach_body _).ctx.splitmuxsink = _
        rw [hfr.1]; rfl
      · show (detach_body _).trace = _
        rw [htr]; simp [emit, detach_log]
      · intro a ha
        simp only [detach_log, List.mem_cons, List.mem_singleton, List.not_mem_nil,
          or_false] at ha
        rcases ha with h | h | h | h | h | h | h | h | h | h | h | h | h | h <;>
          subst h <;> simp [Action.stage]
    · rw [fire_lost i s pad hg hrem]
      exact ⟨rfl, rfl, rfl, rfl, List.Sublist.refl _, List.Sublist.refl _, List.Sublist.refl _,
        [.compare_and_exchange false], rfl, by simp [Action.stage]⟩

/-- C5 fails as stated: the Stopping example state is reached by two trigger
calls, the third trigger call is a `stop_record`, and it registers a second
detach callback. -/
theorem stop_record_stopping_schedules_again :
    ex_stopping = run ex_idle [.toggle ex_env, .toggle ex_env] ∧
    ex_stopping.controller = .Stopping ∧
    toggle_record ex_env ex_stopping = stop_record ex_env ex_stopping ∧
    ¬ ((stop_record ex_env ex_stopping).1.probes = ex_stopping.probes ∧
       (stop_record ex_env ex_stopping).1.graph = ex_stopping.graph ∧
       (stop_record ex_env ex_stopping).1.ctx = ex_stopping.ctx) := by
  refine ⟨rfl, rfl, rfl, ?_⟩
  decide

/-- C5, amended: `stop_record` has no state check. Called while Stopping, with
`ctx->teepad` the live requested pad, it is not a no-op: it returns `TRUE` and
registers one more detach callback on `ctx->teepad`. With the pad busy the
callback stays pending and the graph and the controller fields are unchanged.
With the pad idle the callback runs inside the call: if the exchange on
`ctx->removing` has already been won it fails, the callback stays registered
and the graph and the controller fields are unchanged; if not, the detach
sequence runs, the registration is dropped and `record_started` is `FALSE` on
return. While Idle `stop_record` is not called: `toggle_record` calls
`start_record`, which registers no callback. -/
theorem stop_record_stopping_registers (env : Env) (s : State) (p : Pad)
    (_hstop : s.controller = .Stopping)
    (hp : s.ctx.teepad = some p) (hlive : p ∈ s.graph.teePads) :
    (stop_record env s).2 = true ∧
    (new_trace s (stop_record env s).1).take 2 =
      [.g_print ("stop\n"), .pad_add_probe (some p)] ∧
    (env.pad_idle = false →
      (stop_record env s).1.probes = s.probes ++ [p] ∧
      (stop_record env s).1.graph = s.graph ∧
      (stop_record env s).1.ctx = s.ctx ∧
      (stop_record env s).1.next = s.next) ∧
    (env.pad_idle = true → s.ctx.removing = true →
      (stop_record env s).1.probes = s.probes ++ [p] ∧
      (stop_record env s).1.graph = s.graph ∧
      (stop_record env s).1.ctx = s.ctx ∧
      new_trace s (stop_record env s).1 =
        [.g_print ("stop\n"), .pad_add_probe (some p), .compare_and_exchange false]) ∧
    (env.pad_idle = true → s.ctx.removing = false →
      (stop_record env s).1.probes = s.probes ∧
      (stop_record env s).1.ctx =
        { s.ctx with removing := true, record_started := false } ∧
      (stop_record env s).1.graph.teePads = s.graph.teePads.erase p ∧
      (new_trace s (stop_record env s).1).take 3 =
        [.g_print ("stop\n"), .pad_add_probe (some p), .compare_and_exchange true] ∧
      stages (new_trace s (stop_record env s).1) =
        [.unlink_port, .remove_nodes, .deactivate, .release_branch, .release_port,
         .to_idle]) ∧
    (∀ (env0 : Env) (s0 : State), s0.controller = .Idle →
      toggle_record env0 s0 = start_record env0 s0 ∧
      ∀ q, Action.pad_add_probe q ∉ new_trace s0 (toggle_record env0 s0).1) := by
  have hpend := stop_pending_live s p hp hlive
  have hget : (stop_pending s).probes.get? s.probes.length = some p := by
    rw [hpend]; simp
  refine ⟨rfl, ?_, ?_, ?_, ?_, ?_⟩
  · rw [stop_record_eq]
    obtain ⟨_, _, _, _, _, _, _, l, hl, _⟩ := fire_frame s.probes.length (stop_pending s)
    cases env.pad_idle
    · simp [new_trace, hpend]
    · simp only [if_true, new_trace, hl]
      rw [hpend]
      simp
  · intro hi
    rw [stop_record_eq, hi, hpend]
    simp
  · intro hi hrem
    have hrem2 : (stop_pending s).ctx.removing = true := by rw [hpend]; exact hrem
    rw [stop_record_eq, hi]
    simp only [if_true]
    rw [fire_lost _ _ p hget hrem2, hpend]
    simp [emit, new_trace]
  · intro hi hrem
    have hrem2 : (stop_pending s).ctx.removing = false := by rw [hpend]; exact hrem
    rw [stop_record_eq, hi]
    simp only [if_true]
    rw [fire_won _ _ p hget hrem2]
    have hfr := detach_body_frame (emit (.compare_and_exchange true)
        { stop_pending s with ctx := { (stop_pending s).ctx with removing := true } })
    have htr := detach_body_trace (emit (.compare_and_exchange true)
        { stop_pending s with ctx := { (stop_pending s).ctx with removing := true } })
    have hsome := detach_body_some (emit (.compare_and_exchange true)
        { stop_pending s with ctx := { (stop_pending s).ctx with removing := true } })
    refine ⟨?_, ?_, ?_, ?_, ?_⟩
    · rw [hpend]; simp [eraseIdx_append_last]
    · show (detach_body _).ctx = _
      rw [hfr.1, hpend]; simp [emit]
    · obtain ⟨⟨tp, rp, sms, rs, rm, d⟩, g, pr, n, t⟩ := s
      simp only at hp
      subst hp
      cases rp <;> cases sms <;>
        simp [hpend, detach_body, emit, gst_pad_unlink, gst_bin_remove,
          gst_element_release_request_pad]
    · show ((detach_body _).trace.drop _).take 3 = _
      rw [htr, hpend]; simp [emit, detach_log]
    · show stages ((detach_body _).trace.drop _) = _
      rw [htr, hpend]
      simp only [emit, detach_log, List.append_assoc, List.drop_left']
      simp only [List.cons_append, List.nil_append, List.drop_left' rfl]
      rfl
  · intro env0 s0 hidle
    have hrs : s0.ctx.record_started = false := by
      unfold State.controller at hidle
      cases h : s0.ctx.record_started
      · rfl
      · rw [h] at hidle
        simp only [if_true] at hidle
        split at hidle <;> cases hidle
    have ht : toggle_record env0 s0 = start_record env0 s0 := by simp [toggle_record, hrs]
    refine ⟨ht, ?_⟩
    intro q
    rw [ht]
    cases hq : env0.parse_ok s0.ctx.record_pipeline_description
    · rw [start_record_reject env0 s0 hq]; simp [new_trace]
    · rw [start_record_accept env0 s0 hq]; simp [new_trace, start_log]

/-- Witness of C5 (amended) on the Stopping example state. -/
theorem stop_record_stopping_registers_witness :
    ex_stopping.controller = .Stopping ∧ ex_stopping.ctx.teepad = some ⟨2⟩ ∧
    (⟨2⟩ : Pad) ∈ ex_stopping.graph.teePads ∧
    (stop_record ex_env ex_stopping).2 = true :=
  ⟨rfl, rfl, by decide,
    (stop_record_stopping_registers ex_env ex_stopping ⟨2⟩ rfl rfl (by decide)).1⟩

/-- C7 fails as stated: on the Idle example state with a failing pad link,
`start_record` returns `TRUE`, keeps the pad and sets `record_started`. -/
theorem start_record_link_failure_not_reported :
    ex_idle.idle = true ∧
    ex_env_nolink.parse_ok ex_idle.ctx.record_pipeline_description = true ∧
    ex_env_nolink.link_ok ex_idle.ctx.record_pipeline_description = false ∧
    (start_record ex_env_nolink ex_idle).2 ≠ false ∧
    (start_record ex_env_nolink ex_idle).1.active_ports ≠ ex_idle.active_ports ∧
    (start_record ex_env_nolink ex_idle).1.ctx.record_started ≠ false := by
  decide

/-- C7, amended: when the description parses and the pad link fails,
`start_record` (from any state, Idle included) ignores the result of
`gst_pad_link`: it returns `TRUE`, the requested pad stays allocated and
unlinked in `ctx->teepad`, no release is logged, and `record_started` becomes
`TRUE`. -/
theorem start_record_ignores_link_failure (env : Env) (s : State)
    (hp : env.parse_ok s.ctx.record_pipeline_description = true)
    (hl : env.link_ok s.ctx.record_pipeline_description = false) :
    (start_record env s).2 = true ∧
    (start_record env s).1.ctx.record_started = true ∧
    (start_record env s).1.ctx.teepad = some ⟨s.next⟩ ∧
    (start_record env s).1.graph.teePads = s.graph.teePads ++ [⟨s.next⟩] ∧
    (start_record env s).1.active_ports = s.active_ports + 1 ∧
    (start_record env s).1.graph.links = s.graph.links ∧
    Action.pad_link (some ⟨s.next⟩) (some ⟨.record_pipeline, s.next + 1⟩) false ∈
      new_trace s (start_record env s).1 ∧
    (∀ p, Action.release_request_pad p ∉ new_trace s (start_record env s).1) := by
  rw [start_record_accept env s hp]
  simp [State.active_ports, new_trace, hl, start_log]

/-- Witness of C7 (amended) on the Idle example state. -/
theorem start_record_ignores_link_failure_witness :
    ex_env_nolink.parse_ok ex_idle.ctx.record_pipeline_description = true ∧
    ex_env_nolink.link_ok ex_idle.ctx.record_pipeline_description = false ∧
    (start_record ex_env_nolink ex_idle).2 = true :=
  ⟨rfl, rfl, (start_record_ignores_link_failure ex_env_nolink ex_idle rfl rfl).1⟩

/-- C8: when `unlink_cb` wins the exchange on `ctx->removing`, it returns
`GST_PAD_PROBE_REMOVE` and the calls it makes are, in this order: unlink the tee
pad from the `sink` pad of the record bin; remove both branch nodes from the
bin; set both to the NULL state; drop the references to both; release the tee
pad; set `record_started` to `FALSE`. The release of the pad comes after its
unlink. -/
theorem unlink_cb_detach_sequence (pad : Pad) (s : State)
    (hwin : s.ctx.removing = false) :
    (unlink_cb pad s).2 = .REMOVE ∧
    new_trace s (unlink_cb pad s).1 =
      [.compare_and_exchange true,
       .get_static_pad s.ctx.record_pipeline ("sink"),
       .pad_unlink s.ctx.teepad s.ctx.record_pipeline,
       .unref_sinkpad s.ctx.record_pipeline,
       .bin_remove s.ctx.record_pipeline,
       .bin_remove s.ctx.splitmuxsink,
       .set_state_null s.ctx.splitmuxsink,
       .set_state_null s.ctx.record_pipeline,
       .object_unref s.ctx.record_pipeline,
       .object_unref s.ctx.splitmuxsink,
       .release_request_pad s.ctx.teepad,
       .unref_pad s.ctx.teepad,
       .g_print ("Record stopped\n"),
       .set_record_started false] ∧
    stages (new_trace s (unlink_cb pad s).1) =
      [.unlink_port, .remove_nodes, .deactivate, .release_branch, .release_port, .to_idle] ∧
    first_at .unlink_port (new_trace s (unlink_cb pad s).1) <
      first_at .release_port (new_trace s (unlink_cb pad s).1) ∧
    (unlink_cb pad s).1.ctx.record_started = false := by
  have ht : new_trace s (unlink_cb pad s).1 =
      [.compare_and_exchange true,
       .get_static_pad s.ctx.record_pipeline ("sink"),
       .pad_unlink s.ctx.teepad s.ctx.record_pipeline,
       .unref_sinkpad s.ctx.record_pipeline,
       .bin_remove s.ctx.record_pipeline,
       .bin_remove s.ctx.splitmuxsink,
       .set_state_null s.ctx.splitmuxsink,
       .set_state_null s.ctx.record_pipeline,
       .object_unref s.ctx.record_pipeline,
       .object_unref s.ctx.splitmuxsink,
       .release_request_pad s.ctx.teepad,
       .unref_pad s.ctx.teepad,
       .g_print ("Record stopped\n"),
       .set_record_started false] := by
    rw [unlink_cb_won pad s hwin, new_trace, detach_body_trace]
    simp [emit, detach_log]
  refine ⟨by rw [unlink_cb_won pad s hwin], ht, ?_, ?_, ?_⟩
  · rw [ht]; rfl
  · rw [ht]; exact (by decide : (2 : Nat) < 10)
  · rw [unlink_cb_won pad s hwin, (detach_body_frame _).1]

/-- Witness of C8 on the Stopping example state. -/
theorem unlink_cb_detach_sequence_witness :
    ex_stopping.ctx.removing = false ∧
    stages (new_trace ex_stopping (unlink_cb ⟨2⟩ ex_stopping).1) =
      [.unlink_port, .remove_nodes, .deactivate, .release_branch, .release_port, .to_idle] :=
  ⟨rfl, (unlink_cb_detach_sequence ⟨2⟩ ex_stopping rfl).2.2.1⟩

/-- C9 fails as stated: in the run of `start_record` on the Idle example state
the tee pad is linked after the branch state is synchronised, not before. -/
theorem start_record_link_not_before_sync :
    (start_record ex_env ex_idle).2 = true ∧
    ¬ (first_at .link_port (new_trace ex_idle (start_record ex_env ex_idle).1) <
        first_at .sync_state (new_trace ex_idle (start_record ex_env ex_idle).1)) ∧
    stages (new_trace ex_idle (start_record ex_env ex_idle).1) ≠
      [.request_port, .build_branch, .add_nodes, .link_port, .sync_state, .to_recording] := by
  decide

/-- C9, amended: a successful `start_record` requests a pad, builds the branch
(parsed bin and splitmuxsink), adds both nodes to the bin, links the two
branch nodes, synchronises their state with the bin, links the tee pad to the
`sink` pad of the record bin, then sets `record_started` to `TRUE`. The tee pad
is linked after the state synchronisation. -/
theorem start_record_attach_sequence (env : Env) (s : State)
    (hok : (start_record env s).2 = true) :
    new_trace s (start_record env s).1 =
      [.g_print ("Start record\n"), .get_pad_template ("src_%u"),
       .request_pad (some ⟨s.next⟩),
       .parse_bin_from_description s.ctx.record_pipeline_description
         (some ⟨.record_pipeline, s.next + 1⟩),
       .factory_make ("splitmuxsink") (some ⟨.splitmuxsink, s.next + 2⟩),
       .set_removing false,
       .object_set (some ⟨.splitmuxsink, s.next + 2⟩) ("muxer-factory"),
       .object_set (some ⟨.splitmuxsink, s.next + 2⟩) ("async-finalize"),
       .object_set (some ⟨.splitmuxsink, s.next + 2⟩) ("max-size-time"),
       .signal_connect (some ⟨.splitmuxsink, s.next + 2⟩) ("format_location"),
       .object_ref (some ⟨.record_pipeline, s.next + 1⟩),
       .object_ref (some ⟨.splitmuxsink, s.next + 2⟩),
       .bin_add ⟨.record_pipeline, s.next + 1⟩,
       .bin_add ⟨.splitmuxsink, s.next + 2⟩,
       .element_link (some ⟨.record_pipeline, s.next + 1⟩) (some ⟨.splitmuxsink, s.next + 2⟩),
       .sync_state_with_parent (some ⟨.record_pipeline, s.next + 1⟩),
       .sync_state_with_parent (some ⟨.splitmuxsink, s.next + 2⟩),
       .get_static_pad (some ⟨.record_pipeline, s.next + 1⟩) ("sink"),
       .pad_link (some ⟨s.next⟩) (some ⟨.record_pipeline, s.next + 1⟩)
         (env.link_ok s.ctx.record_pipeline_description),
       .unref_sinkpad (some ⟨.record_pipeline, s.next + 1⟩),
       .set_record_started true] ∧
    stages (new_trace s (start_record env s).1) =
      [.request_port, .build_branch, .add_nodes, .link_branch_nodes, .sync_state,
       .link_port, .to_recording] ∧
    first_at .sync_state (new_trace s (start_record env s).1) <
      first_at .link_port (new_trace s (start_record env s).1) ∧
    (start_record env s).1.ctx.record_started = true := by
  have hp : env.parse_ok s.ctx.record_pipeline_description = true := by
    cases hq : env.parse_ok s.ctx.record_pipeline_description
    · rw [start_record_reject env s hq] at hok; simp at hok
    · rfl
  have ht : new_trace s (start_record env s).1 = start_log env s := by
    rw [start_record_accept env s hp]; simp [new_trace]
  rw [ht]
  refine ⟨rfl, rfl, (by decide : (15 : Nat) < 18), ?_⟩
  rw [start_record_accept env s hp]

/-- Witness of C9 (amended) on the Idle example state. -/
theorem start_record_attach_sequence_witness :
    (start_record ex_env ex_idle).2 = true ∧
    stages (new_trace ex_idle (start_record ex_env ex_idle).1) =
      [.request_port, .build_branch, .add_nodes, .link_branch_nodes, .sync_state,
       .link_port, .to_recording] :=
  ⟨rfl, (start_record_attach_sequence ex_env ex_idle rfl).2.1⟩

theorem cycle_closed (env : Env) (s : State)
    (hp : env.parse_ok s.ctx.record_pipeline_description = true) :
    (cycle env s).ctx =
      { s.ctx with teepad := some ⟨s.next⟩,
                   record_pipeline := some ⟨.record_pipeline, s.next + 1⟩,
                   splitmuxsink := some ⟨.splitmuxsink, s.next + 2⟩,
                   removing := true, record_started := false } ∧
    (cycle env s).graph.children =
      List.erase (List.erase
        (s.graph.children ++ [Elem.mk .record_pipeline (s.next + 1), Elem.mk .splitmuxsink (s.next + 2)])
        (Elem.mk .record_pipeline (s.next + 1))) (Elem.mk .splitmuxsink (s.next + 2)) ∧
    (cycle env s).graph.teePads = List.erase (s.graph.teePads ++ [Pad.mk s.next]) (Pad.mk s.next) ∧
    (cycle env s).graph.links =
      List.erase (if env.link_ok s.ctx.record_pipeline_description = true then
          s.graph.links ++ [(Pad.mk s.next, Elem.mk .record_pipeline (s.next + 1))]
        else s.graph.links) (Pad.mk s.next, Elem.mk .record_pipeline (s.next + 1)) ∧
    (cycle env s).probes = s.probes ∧
    (cycle env s).next = s.next + 3 := by
  have hs1 := start_record_accept env s hp
  generalize hs1d : (start_record env s).1 = s1 at hs1
  have e1 : s1.ctx.teepad = some ⟨s.next⟩ := by rw [← hs1d, hs1]
  have e2 : s1.ctx.record_pipeline = some ⟨.record_pipeline, s.next + 1⟩ := by rw [← hs1d, hs1]
  have e3 : s1.ctx.splitmuxsink = some ⟨.splitmuxsink, s.next + 2⟩ := by rw [← hs1d, hs1]
  have e4 : s1.ctx.removing = false := by rw [← hs1d, hs1]
  have e5 : s1.probes = s.probes := by rw [← hs1d, hs1]
  have e6 : (⟨s.next⟩ : Pad) ∈ s1.graph.teePads := by rw [← hs1d, hs1]; simp
  have hpend := stop_pending_live s1 ⟨s.next⟩ e1 e6
  have hget : (stop_pending s1).probes.get? s1.probes.length = some ⟨s.next⟩ := by
    rw [hpend]; simp
  have hrem : (stop_pending s1).ctx.removing = false := by rw [hpend]; exact e4
  have hwon := fire_won _ _ _ hget hrem
  have hsome := detach_body_some (emit (.compare_and_exchange true)
      { stop_pending s1 with ctx := { (stop_pending s1).ctx with removing := true } })
      ⟨s.next⟩ ⟨.record_pipeline, s.next + 1⟩ ⟨.splitmuxsink, s.next + 2⟩
      (by rw [hpend]; exact e1) (by rw [hpend]; exact e2) (by rw [hpend]; exact e3)
  rw [hsome] at hwon
  have hXp : (fire s1.probes.length (stop_pending s1)).probes = s1.probes := by
    rw [hwon, hpend]; simp [eraseIdx_append_last]
  have hcyc : cycle env s = fire s1.probes.length (stop_pending s1) := by
    simp only [cycle, hs1d, stop_record_eq]
    cases env.pad_idle
    · simp
    · simp only [if_true]
      apply fire_none
      rw [hXp]
      simp
  rw [hcyc, hwon, hpend, ← hs1d, hs1]
  simp [emit, eraseIdx_append_last]

theorem cycle_idle (env : Env) (s : State) (hidle : s.idle = true)
    (hp : env.parse_ok s.ctx.record_pipeline_description = true) :
    (cycle env s).graph.children = s.graph.children ∧
    (cycle env s).graph.links = s.graph.links ∧
    (cycle env s).graph.teePads.length = s.graph.teePads.length ∧
    ((∀ p ∈ s.graph.teePads, p.id < s.next) → (cycle env s).graph.teePads = s.graph.teePads) ∧
    (cycle env s).idle = true ∧
    (cycle env s).ctx.record_pipeline_description = s.ctx.record_pipeline_description ∧
    (cycle env s).probes = s.probes ∧
    (cycle env s).next = s.next + 3 := by
  obtain ⟨hctx, hch, htp, hln, hpr, hnx⟩ := cycle_closed env s hp
  simp only [State.idle, Bool.and_eq_true, Bool.not_eq_true', no_branch_iff] at hidle
  obtain ⟨hrs, hmedia, hlinks⟩ := hidle
  have h1 : (Elem.mk .record_pipeline (s.next + 1)) ∉ s.graph.children := by
    intro hmem; have := hmedia _ hmem; simp at this
  have h2 : (Elem.mk .splitmuxsink (s.next + 2)) ∉ s.graph.children := by
    intro hmem; have := hmedia _ hmem; simp at this
  have h3 : (Pad.mk s.next, Elem.mk .record_pipeline (s.next + 1)) ∉ s.graph.links := by
    intro hmem; have := hlinks _ hmem; simp at this
  have hch2 : (cycle env s).graph.children = s.graph.children := by
    rw [hch, List.erase_append_right _ h1]
    simp only [List.erase_cons_head]
    exact erase_append_self _ _ h2
  have hln2 : (cycle env s).graph.links = s.graph.links := by
    rw [hln]
    split
    · exact erase_append_self _ _ h3
    · exact List.erase_of_not_mem h3
  refine ⟨hch2, hln2, ?_, ?_, ?_, ?_, hpr, hnx⟩
  · rw [htp, List.length_erase_of_mem (by simp)]
    simp
  · intro hfresh
    rw [htp]
    apply erase_append_self
    intro hmem
    have := hfresh _ hmem
    simp at this
  · simp only [State.idle, Bool.and_eq_true, Bool.not_eq_true', no_branch_iff, hch2, hln2]
    exact ⟨by rw [hctx], hmedia, hlinks⟩
  · rw [hctx]

theorem cycles_idle (env : Env) (n : Nat) (s : State) (hidle : s.idle = true)
    (hp : env.parse_ok s.ctx.record_pipeline_description = true) :
    (cycles env n s).graph.children = s.graph.children ∧
    (cycles env n s).graph.links = s.graph.links ∧
    (cycles env n s).graph.teePads.length = s.graph.teePads.length ∧
    ((∀ p ∈ s.graph.teePads, p.id < s.next) →
      (cycles env n s).graph.teePads = s.graph.teePads) ∧
    (cycles env n s).idle = true ∧
    (cycles env n s).probes = s.probes := by
  induction n generalizing s with
  | zero => simp [cycles, hidle]
  | succ k ih =>
    obtain ⟨c1, c2, c3, c4, c5, c6, c7, c8⟩ := cycle_idle env s hidle hp
    obtain ⟨i1, i2, i3, i4, i5, i6⟩ := ih (cycle env s) c5 (by rw [c6]; exact hp)
    simp only [cycles]
    refine ⟨i1.trans c1, i2.trans c2, i3.trans c3, ?_, i5, i6.trans c7⟩
    intro hfresh
    have ht := c4 hfresh
    rw [i4 ?_, ht]
    intro p hmem
    rw [ht] at hmem
    rw [c8]
    exact Nat.lt_of_lt_of_le (hfresh p hmem) (by omega)

/-- C3: from an Idle state, after `n >= 1` complete cycles (`start_record` with
a description that parses, `stop_record`, the scheduled `unlink_cb` fires) the
active-port count of the tee is the one before the cycles, the children of the
bin and the pad links are the ones before the cycles, so no record bin or
splitmuxsink is registered, the pending callbacks are the ones before, and the
state is Idle again. When the pad handles in use are below the allocator
counter, the whole graph is identical to the start. -/
theorem cycles_conserve_resources (env : Env) (s : State) (n : Nat) (_hn : 1 ≤ n)
    (hidle : s.idle = true)
    (hp : env.parse_ok s.ctx.record_pipeline_description = true) :
    (cycles env n s).active_ports = s.active_ports ∧
    (cycles env n s).graph.children = s.graph.children ∧
    (cycles env n s).graph.links = s.graph.links ∧
    (cycles env n s).graph.branches = [] ∧
    (cycles env n s).graph.branch_sinks = [] ∧
    (cycles env n s).graph.branch_links = [] ∧
    (cycles env n s).probes = s.probes ∧
    (cycles env n s).ctx.record_started = false ∧
    (cycles env n s).idle = true ∧
    ((∀ p ∈ s.graph.teePads, p.id < s.next) → (cycles env n s).graph = s.graph) := by
  obtain ⟨i1, i2, i3, i4, i5, i6⟩ := cycles_idle env n s hidle hp
  have hid := i5
  simp only [State.idle, Bool.and_eq_true, Bool.not_eq_true', no_branch_iff] at hid
  obtain ⟨hrs, hmedia, hlinks⟩ := hid
  refine ⟨i3, i1, i2, ?_, ?_, ?_, i6, hrs, i5, ?_⟩
  · simp only [Graph.branches, List.filter_eq_nil_iff]
    intro e he; simp [hmedia e he]
  · simp only [Graph.branch_sinks, List.filter_eq_nil_iff]
    intro e he; simp [hmedia e he]
  · simp only [Graph.branch_links, List.filter_eq_nil_iff]
    intro l hl; simp [hlinks l hl]
  · intro hfresh
    have h4 := i4 hfresh
    cases hg : (cycles env n s).graph
    cases hs : s.graph
    simp only [hg, hs] at i1 i2 h4
    simp [i1, i2, h4]

/-- Witness of C3: five cycles on the Idle example state. -/
theorem cycles_conserve_resources_witness :
    1 ≤ 5 ∧ ex_idle.idle = true ∧
    ex_env.parse_ok ex_idle.ctx.record_pipeline_description = true ∧
    (cycles ex_env 5 ex_idle).active_ports = ex_idle.active_ports ∧
    (cycles ex_env 5 ex_idle).graph.children = ex_idle.graph.children :=
  ⟨by decide, rfl, rfl,
    (cycles_conserve_resources ex_env ex_idle 5 (by decide) rfl rfl).1,
    (cycles_conserve_resources ex_env ex_idle 5 (by decide) rfl rfl).2.1⟩

theorem inv_of_same (s t : State) (hc : t.ctx = s.ctx) (hg : t.graph = s.graph)
    (h : Inv s) : Inv t := by
  unfold Inv at *
  rw [hc, hg]
  exact h

theorem inv_detach_body (s : State) (h : Inv s) : Inv (detach_body s) := by
  have hfr := detach_body_frame s
  refine ⟨fun _ => ?_, fun hc => ?_⟩
  · cases hrs : s.ctx.record_started
    · have hnb := h.1 hrs
      rw [no_branch_iff] at hnb ⊢
      exact ⟨fun e he => hnb.1 e (hfr.2.2.2.1.subset he),
        fun l hl => hnb.2 l (hfr.2.2.2.2.1.subset hl)⟩
    · obtain ⟨tp, rp, sms, base, bl, h1, _, h2, h3, k1, k2, hb, hl, hch, hlk⟩ := h.2 hrs
      rw [detach_body_some s tp rp sms h1 h2 h3, no_branch_iff]
      have n1 : rp ∉ base := by
        intro hmem; have := hb _ hmem; rw [k1] at this; simp at this
      have n2 : sms ∉ base := by
        intro hmem; have := hb _ hmem; rw [k2] at this; simp at this
      have n3 : (tp, rp) ∉ bl := by
        intro hmem; have := hl _ hmem; simp only [k1] at this; simp at this
      have e1 : (s.graph.children.erase rp).erase sms = base := by
        rw [hch, List.erase_append_right _ n1]
        simp only [List.erase_cons_head]
        exact erase_append_self _ _ n2
      have e2 : s.graph.links.erase (tp, rp) = bl := by
        rcases hlk with hlk | hlk
        · rw [hlk]; exact List.erase_of_not_mem n3
        · rw [hlk]; exact erase_append_self _ _ n3
      simp only [e1, e2]
      exact ⟨hb, hl⟩
  · rw [hfr.1] at hc
    simp at hc

theorem inv_fire (i : Nat) (s : State) (h : Inv s) : Inv (fire i s) := by
  unfold fire
  cases hg : s.probes.get? i with
  | none => exact h
  | some pad =>
    cases hrem : s.ctx.removing
    · simp only [unlink_cb_won pad s hrem]
      have hd := inv_detach_body
        (emit (.compare_and_exchange true) { s with ctx := { s.ctx with removing := true } })
        (by
          unfold Inv at h ⊢
          simpa [emit] using h)
      exact inv_of_same _ _ rfl rfl hd
    · simp only [unlink_cb_lost pad s hrem]
      exact inv_of_same s _ rfl rfl h

theorem inv_toggle (env : Env) (s : State) (h : Inv s) : Inv (toggle_record env s).1 := by
  cases hrs : s.ctx.record_started
  · have hnb := h.1 hrs
    have ht : toggle_record env s = start_record env s := by simp [toggle_record, hrs]
    rw [ht]
    cases hp : env.parse_ok s.ctx.record_pipeline_description
    · rw [start_record_reject env s hp]
      refine ⟨fun _ => ?_, fun hc => ?_⟩
      · rw [no_branch_iff] at hnb ⊢
        exact hnb
      · simp [hrs] at hc
    · rw [start_record_accept env s hp]
      rw [no_branch_iff] at hnb
      refine ⟨fun hc => ?_, fun _ => ?_⟩
      · simp at hc
      · refine ⟨⟨s.next⟩, ⟨.record_pipeline, s.next + 1⟩, ⟨.splitmuxsink, s.next + 2⟩,
          s.graph.children, s.graph.links, rfl, by simp, rfl, rfl, rfl, rfl, hnb.1, hnb.2, rfl, ?_⟩
        cases env.link_ok s.ctx.record_pipeline_description <;> simp
  · have ht : toggle_record env s = stop_record env s := by simp [toggle_record, hrs]
    have hpend : Inv (stop_pending s) :=
      inv_of_same s _ (stop_pending_frame s).1 (stop_pending_frame s).2.1 h
    rw [ht, stop_record_eq]
    cases env.pad_idle
    · exact hpend
    · exact inv_fire _ _ hpend

theorem inv_run (evs : List Event) (s : State) (h : Inv s) : Inv (run s evs) := by
  induction evs generalizing s with
  | nil => exact h
  | cons ev rest ih =>
    simp only [run, List.foldl_cons]
    apply ih
    cases ev with
    | toggle env => exact inv_toggle env s h
    | fire i => exact inv_fire i s h

theorem inv_bounds (s : State) (h : Inv s) :
    s.graph.branches.length ≤ 1 ∧ s.graph.branch_sinks.length ≤ 1 ∧
    s.graph.branch_links.length ≤ 1 := by
  cases hrs : s.ctx.record_started
  · have hnb := h.1 hrs
    rw [no_branch_iff] at hnb
    have b1 : s.graph.branches = [] := by
      simp only [Graph.branches, List.filter_eq_nil_iff]
      intro e he; simp [hnb.1 e he]
    have b2 : s.graph.branch_sinks = [] := by
      simp only [Graph.branch_sinks, List.filter_eq_nil_iff]
      intro e he; simp [hnb.1 e he]
    have b3 : s.graph.branch_links = [] := by
      simp only [Graph.branch_links, List.filter_eq_nil_iff]
      intro l hl; simp [hnb.2 l hl]
    simp [b1, b2, b3]
  · obtain ⟨tp, rp, sms, base, bl, _, _, _, _, k1, k2, hb, hl, hch, hlk⟩ := h.2 hrs
    have f1 : base.filter (fun e => decide (e.kind = .record_pipeline)) = [] := by
      simp only [List.filter_eq_nil_iff]
      intro e he; simp [hb e he]
    have f2 : base.filter (fun e => decide (e.kind = .splitmuxsink)) = [] := by
      simp only [List.filter_eq_nil_iff]
      intro e he; simp [hb e he]
    have f3 : bl.filter (fun l => decide (l.2.kind ≠ .media)) = [] := by
      simp only [List.filter_eq_nil_iff]
      intro l hmem; simp [hl l hmem]
    refine ⟨?_, ?_, ?_⟩
    · simp [Graph.branches, hch, List.filter_append, f1, List.filter_cons, k1, k2]
    · simp [Graph.branch_sinks, hch, List.filter_append, f2, List.filter_cons, k1, k2]
    · rcases hlk with hlk | hlk
      · rw [Graph.branch_links, hlk, f3]
        simp
      · rw [Graph.branch_links, hlk, List.filter_append, f3, List.nil_append]
        exact List.length_filter_le _ _

theorem inv_media_configure (garbage : Context) (g : Graph) (next : Nat)
    (hg : g.no_branch = true) : Inv (media_configure garbage g next) := by
  refine ⟨fun _ => hg, fun hc => ?_⟩
  simp [media_configure, emit] at hc

/-- In every state the program reaches with `record_started` `TRUE`, the field
`ctx->teepad` holds a live pad of the tee: `stop_record` is only ever called on
a live pad. -/
theorem run_teepad_live (garbage : Context) (g : Graph) (next : Nat)
    (evs : List Event) (hg : g.no_branch = true)
    (hrs : (run (media_configure garbage g next) evs).ctx.record_started = true) :
    ∃ tp, (run (media_configure garbage g next) evs).ctx.teepad = some tp ∧
      tp ∈ (run (media_configure garbage g next) evs).graph.teePads := by
  obtain ⟨tp, _, _, _, _, h1, h2, _⟩ :=
    (inv_run evs _ (inv_media_configure garbage g next hg)).2 hrs
  exact ⟨tp, h1, h2⟩

/-- C4: from the state set up by `media_configure` on a pipeline without
record branch, after every finite sequence of `toggle_record` calls and
firings of pending detach callbacks, at most one record bin and at most one
splitmuxsink are registered in the bin and at most one tee pad is linked to a
branch. -/
theorem single_branch_invariant (garbage : Context) (g : Graph) (next : Nat)
    (evs : List Event) (hg : g.no_branch = true) :
    (run (media_configure garbage g next) evs).graph.branches.length ≤ 1 ∧
    (run (media_configure garbage g next) evs).graph.branch_sinks.length ≤ 1 ∧
    (run (media_configure garbage g next) evs).graph.branch_links.length ≤ 1 := by
  apply inv_bounds
  apply inv_run
  refine ⟨fun _ => hg, fun hc => ?_⟩
  simp [media_configure, emit] at hc

/-- Witness of C4: a run on the example pipeline in which `stop_record` is
called twice before the first callback fires. -/
theorem single_branch_invariant_witness :
    ex_graph.no_branch = true ∧
    (run (media_configure ⟨none, none, none, true, true, "queue"⟩ ex_graph 2)
      [.toggle ex_env, .toggle ex_env, .toggle ex_env, .fire 0, .toggle ex_env,
       .fire 0]).graph.branches.length ≤ 1 :=
  ⟨rfl, (single_branch_invariant ⟨none, none, none, true, true, "queue"⟩ ex_graph 2
    [.toggle ex_env, .toggle ex_env, .toggle ex_env, .fire 0, .toggle ex_env, .fire 0] rfl).1⟩

end DynSplitmux
